import Mathlib

/-!
Verification development for the log-parsing and result-aggregation layer of
the MC-aig-only-benchmark repository.

The Python sources parse solver log files with a fixed set of regular
expression searches and then post-process the matched substrings.  The
shallow embedding below represents the text of a log file by the outcomes of
exactly those regular-expression searches (a "view" structure per parser
variant: the matched groups, in source order), and transcribes all of the
post-match logic — Python `float`/`int` conversion on the regex-constrained
character classes, `str.strip`/`str.lower`/`str.split`/`str.replace`,
`datetime.strptime` on the fixed ctime-style format, tuple construction and
unpacking, dict insertion — directly from the source.  Fallible Python code
(raised exceptions) is modelled with `Except`; times are exact rationals;
printed warnings of the directory aggregators are modelled as an explicitly
returned list of message strings.  All string primitives are defined by
structural recursion on the character list so that every definition
evaluates inside the kernel.
-/

/-- The Python exceptions that the modelled code can raise. -/
inductive PyErr : Type
  | valueError
  | fileNotFound
deriving DecidableEq, Repr

deriving instance DecidableEq for Except

/-- Characters treated as whitespace by Python `str.strip()` and `\s`
(ASCII subset; the text handled here contains no other whitespace). -/
def isPySpace (c : Char) : Bool :=
  c = ' ' || c = '\t' || c = '\n' || c = '\r' || c = '\x0b' || c = '\x0c'

/-- Python `s.strip()`: drop leading and trailing whitespace. -/
def pyStrip (s : String) : String :=
  ⟨((s.data.dropWhile isPySpace).reverse.dropWhile isPySpace).reverse⟩

/-- Python `s.strip(chars)` with an explicit character set: drop leading and
trailing characters belonging to the set. -/
def pyStripSet (set : List Char) (s : String) : String :=
  ⟨((s.data.dropWhile (set.contains ·)).reverse.dropWhile (set.contains ·)).reverse⟩

/-- Python `s.lower()` (ASCII letters, the only letters appearing here). -/
def pyLower (s : String) : String :=
  ⟨s.data.map Char.toLower⟩

/-- Split a character list at every occurrence of the separator character,
keeping empty pieces, exactly like Python `s.split(sep)` for a one-character
separator. -/
def splitOnCharList (c : Char) : List Char → List (List Char)
  | [] => [[]]
  | x :: rest =>
    match splitOnCharList c rest with
    | [] => [[]]
    | g :: gs => if x = c then [] :: g :: gs else (x :: g) :: gs

/-- Python `s.split(sep)` for a one-character separator. -/
def splitOnChar (c : Char) (s : String) : List String :=
  (splitOnCharList c s.data).map (fun l => (⟨l⟩ : String))

/-- Split a character list at every character satisfying the predicate,
keeping empty pieces. -/
def splitByPredList (p : Char → Bool) : List Char → List (List Char)
  | [] => [[]]
  | x :: rest =>
    match splitByPredList p rest with
    | [] => [[]]
    | g :: gs => if p x then [] :: g :: gs else (x :: g) :: gs

/-- The non-empty maximal runs of non-separator characters of a string: the
fields that consecutive `\s+`-separated directives of a `strptime` format
bind. -/
def tokensBy (p : Char → Bool) (s : String) : List String :=
  ((splitByPredList p s.data).map (fun l => (⟨l⟩ : String))).filter (fun t => t ≠ "")

/-- Python `s.endswith(suffix)`. -/
def pyEndsWith (s suffix : String) : Bool :=
  List.isSuffixOf suffix.data s.data

/-- Python `s.startswith(p)`. -/
def pyStartsWith (s p : String) : Bool :=
  List.isPrefixOf p.data s.data

/-- Replace every non-overlapping occurrence of `old` (non-empty), left to
right.  The fuel argument, initialized to the length of the list, only makes
the recursion structural; it is never exhausted. -/
def pyReplaceAux (old new : List Char) : ℕ → List Char → List Char
  | 0, cs => cs
  | _ + 1, [] => []
  | fuel + 1, c :: rest =>
    if List.isPrefixOf old (c :: rest) then
      new ++ pyReplaceAux old new fuel ((c :: rest).drop old.length)
    else c :: pyReplaceAux old new fuel rest

/-- Python `s.replace(old, new)`.  At every call site of the sources `old`
is the fixed non-empty suffix `"_log.txt"`; the empty-`old` case (which
Python treats specially) is left as the identity. -/
def pyReplace (s old new : String) : String :=
  if old.data = [] then s else ⟨pyReplaceAux old.data new.data s.data.length s.data⟩

/-- Numeric value of a string of decimal digits (Python semantics: leading
zeros allowed; the empty string denotes 0 in the fractional-part use
below). -/
def digitsNat (s : String) : ℕ :=
  s.data.foldl (fun a c => 10 * a + (c.toNat - 48)) 0

/-- Python `int(s)` restricted to the character class produced by the
regexes that feed it here (digits and whitespace, after stripping): succeeds
exactly on a non-empty all-digit string. -/
def pyInt (s : String) : Option ℤ :=
  if s.data ≠ [] ∧ s.data.all Char.isDigit then some (digitsNat s : ℤ) else none

/-- Python `float(s)` restricted to the character class `[0-9.]+` produced
by the regexes that feed it (`([\d.]+)` capture groups): succeeds exactly
when the string consists of digits and at most one dot and contains at least
one digit. -/
def pyFloat (s : String) : Option ℚ :=
  if s.data.any (fun c => ¬ (c.isDigit || c = '.')) then none
  else if ¬ s.data.any Char.isDigit then none
  else match splitOnChar '.' s with
    | [a] => some (digitsNat a : ℚ)
    | [a, b] => some ((digitsNat a : ℚ) + (digitsNat b : ℚ) / ((10 : ℚ) ^ b.length))
    | _ => none

/-- `os.path.join` for the POSIX paths used by the scripts. -/
def pyPathJoin (d f : String) : String :=
  if pyStartsWith f ("/") then f
  else if d = "" ∨ pyEndsWith d ("/") then d ++ f
  else d ++ "/" ++ f

/-- Lookup in an association list modelling a Python dict (`m[k]` /
`k in m`). -/
def lookupKey {β : Type} (m : List (String × β)) (k : String) : Option β :=
  match m with
  | [] => none
  | (k', v) :: rest => if k' = k then some v else lookupKey rest k

/-- Python dict assignment `m[k] = v`: overwrite in place if the key is
present, otherwise append at the end (insertion order preserved). -/
def dictInsert {β : Type} (m : List (String × β)) (k : String) (v : β) :
    List (String × β) :=
  match m with
  | [] => [(k, v)]
  | (k', v') :: rest =>
      if k' = k then (k, v) :: rest else (k', v') :: dictInsert rest k v

/-! ### `datetime.strptime` on the format `"%a %b %d %H:%M:%S CST %Y"`

Both parsers fall back to subtracting two timestamps in the fixed ctime-like
format `"Tue Jun 10 04:16:20 CST 2025"`.  The model below parses that format
and converts it to a count of seconds on the proleptic Gregorian calendar
(Python `datetime.toordinal` convention), so that subtraction of two parsed
timestamps equals `(t2 - t1).total_seconds()` of the source. -/

/-- Gregorian leap-year test. -/
def isLeap (y : ℕ) : Bool :=
  y % 4 = 0 && (y % 100 ≠ 0 || y % 400 = 0)

/-- Length of month `m` (1–12) in year `y`. -/
def daysInMonth (y m : ℕ) : ℕ :=
  if m = 2 then (if isLeap y then 29 else 28)
  else if m = 4 ∨ m = 6 ∨ m = 9 ∨ m = 11 then 30
  else 31

/-- Days in all months of year `y` strictly before month `m`. -/
def daysBeforeMonth (y m : ℕ) : ℕ :=
  (List.range m).foldl (fun a i => if 1 ≤ i then a + daysInMonth y i else a) 0

/-- Days in all years strictly before year `y` (proleptic Gregorian,
counting from year 1, as `datetime.toordinal` does). -/
def daysBeforeYear (y : ℕ) : ℕ :=
  365 * (y - 1) + (y - 1) / 4 - (y - 1) / 100 + (y - 1) / 400

/-- Seconds since the calendar epoch of a calendar date-time. -/
def civilSeconds (y m d h mi s : ℕ) : ℕ :=
  (daysBeforeYear y + daysBeforeMonth y m + d) * 86400 + h * 3600 + mi * 60 + s

/-- Month number of a lowercased abbreviated month name: `%b` matches the
abbreviated names only (`datetime.strptime` raises `ValueError` on a full
name such as `June`). -/
def monthOfName (s : String) : Option ℕ :=
  if s = "jan" then some 1
  else if s = "feb" then some 2
  else if s = "mar" then some 3
  else if s = "apr" then some 4
  else if s = "may" then some 5
  else if s = "jun" then some 6
  else if s = "jul" then some 7
  else if s = "aug" then some 8
  else if s = "sep" then some 9
  else if s = "oct" then some 10
  else if s = "nov" then some 11
  else if s = "dec" then some 12
  else none

/-- Abbreviated weekday names, the only ones `%a` matches
(`datetime.strptime` raises `ValueError` on a full name such as `Tuesday`;
it does not check the weekday against the date). -/
def isWeekdayName (s : String) : Bool :=
  s = "mon" ∨ s = "tue" ∨ s = "wed" ∨ s = "thu" ∨ s = "fri" ∨ s = "sat" ∨
  s = "sun"

/-- A field of 1 to `maxLen` decimal digits, as the `strptime` regex for a
one-or-two-digit numeric directive accepts. -/
def parseNumField (s : String) (maxLen : ℕ) : Option ℕ :=
  if s.data ≠ [] ∧ s.length ≤ maxLen ∧ s.data.all Char.isDigit then
    some (digitsNat s)
  else none

/-- The `%Y` field: exactly four decimal digits, as the `strptime` regex
for `%Y` requires (`datetime.strptime` raises `ValueError` on a 1–3-digit
year). -/
def parseYearField (s : String) : Option ℕ :=
  if s.length = 4 ∧ s.data.all Char.isDigit then some (digitsNat s)
  else none

/-- `datetime.strptime(s, "%a %b %d %H:%M:%S CST %Y")` followed by
conversion to seconds.  `none` models the `ValueError` raised on any
mismatch, including the date-validity check of the `datetime` constructor. -/
def strptimeCtime (s : String) : Option ℕ :=
  match tokensBy isPySpace s with
  | [wd, mon, day, hms, tz, yr] =>
    if ¬ isWeekdayName (pyLower wd) then none
    else match monthOfName (pyLower mon) with
      | none => none
      | some m =>
        match parseNumField day 2, parseYearField yr with
        | some d, some y =>
          match splitOnChar ':' hms with
          | [hh, mm, ss] =>
            match parseNumField hh 2, parseNumField mm 2, parseNumField ss 2 with
            | some h, some mi, some sec =>
              if pyLower tz = "cst" ∧ h ≤ 23 ∧ mi ≤ 59 ∧ sec ≤ 59 ∧
                  1 ≤ y ∧ 1 ≤ d ∧ d ≤ daysInMonth y m then
                some (civilSeconds y m d h mi sec)
              else none
            | _, _, _ => none
          | _ => none
        | _, _ => none
  | _ => none

/-! ## `parse_ric3_log.py` (variant A parser)

The view records the outcomes of the five regex searches performed by
`parse_ric3_log`, in source order:
  * `resultToken`  — group 1 of the first match of `result:\s*(\w+)`
                     (case-insensitive), before lowercasing;
  * `arrayMatch`   — group 0 of the first match of `\[[\d,\s]*\]`;
  * `timeMatch`    — group 1 of the first match of `time:\s*([\d.]+)s`;
  * `startMatch`   — group 1 of the first match of `Started at:\s*(.+)`;
  * `finishMatch`  — group 1 of the first match of `Finished at:\s*(.+)`.
-/

structure Ric3View : Type where
  resultToken : Option String
  arrayMatch : Option String
  timeMatch : Option String
  startMatch : Option String
  finishMatch : Option String
deriving DecidableEq, Repr

namespace ParseRic3Log

/-- Mapping of the lowercased result token to the normalized result label
(`result_token` handling in `parse_ric3_log`, lines 33–40). -/
def resultTypeOfToken (t : Option String) : String :=
  match t with
  | none => "unknown"
  | some s =>
      if pyLower s = "safe" then "proof"
      else if pyLower s = "unsafe" then "counter-example"
      else "unknown"

/-- `int(x.strip()) for x in toks` with Python left-to-right evaluation:
the first failing conversion raises. -/
def mapIntTokens : List String → Except PyErr (List ℤ)
  | [] => .ok []
  | t :: rest =>
    match pyInt (pyStrip t) with
    | none => .error .valueError
    | some n =>
      match mapIntTokens rest with
      | .ok l => .ok (n :: l)
      | .error e => .error e

/-- Lines 51–61 of `parse_ric3_log`: strip the brackets off the matched
array text and return `(array_length, level)` — both the element count of
the comma-separated list, or `(0, 0)` for an empty array. -/
def arrayLengthLevel (arrayStr : String) : Except PyErr (ℤ × ℤ) :=
  let content := pyStrip (pyStripSet ['[', ']'] arrayStr)
  if content = "" then .ok (0, 0)
  else
    match mapIntTokens ((splitOnChar ',' content).filter (fun x => pyStrip x ≠ "")) with
    | .ok vals => .ok ((vals.length : ℤ), (vals.length : ℤ))
    | .error e => .error e

/-- `parse_ric3_log` on the view of a log file's content: returns the tuple
`(time_seconds, array_length, result_type, level)`.  `Except.error` models
an uncaught `ValueError` (only reachable from `float`/`int` conversions). -/
def parse_ric3_log (v : Ric3View) : Except PyErr (ℚ × ℤ × String × ℤ) :=
  let result_type := resultTypeOfToken v.resultToken
  match v.arrayMatch with
  | none => .ok (3600, -1, result_type, -1)
  | some arrayStr =>
    match arrayLengthLevel arrayStr with
    | .error e => .error e
    | .ok (array_length, level) =>
      match v.timeMatch with
      | some t =>
        match pyFloat t with
        | some q => .ok (q, array_length, result_type, level)
        | none => .error .valueError
      | none =>
        match v.startMatch, v.finishMatch with
        | some st, some fi =>
          match strptimeCtime (pyStrip st), strptimeCtime (pyStrip fi) with
          | some t1, some t2 =>
              .ok ((((t2 : ℤ) - (t1 : ℤ) : ℤ) : ℚ), array_length, result_type, level)
          | _, _ => .ok (3600, -1, result_type, -1)
        | _, _ => .ok (3600, -1, result_type, -1)

/-- `parse_ric3_log` at the file level: `content` maps a path to the view of
the file's text, `none` when the file is missing or unreadable (the raised
`FileNotFoundError`/`OSError`). -/
def parse_ric3_log_path (content : String → Option Ric3View) (path : String) :
    Except PyErr (ℚ × ℤ × String × ℤ) :=
  match content path with
  | none => .error .fileNotFound
  | some v => parse_ric3_log v

/-- `parse_ric3_log_batch`: parse every `*_log.txt` file of a directory,
keyed by filename.  On a per-file exception the file is recorded with the
sentinel tuple `(3600, -1, "unknown", -1)` (after printing an error message,
not modelled).  A missing directory raises `FileNotFoundError`.  `fs` maps a
directory to its listing (`none` when it does not exist). -/
def parse_ric3_log_batch (fs : String → Option (List String))
    (content : String → Option Ric3View) (log_dir : String) :
    Except PyErr (List (String × (ℚ × ℤ × String × ℤ))) :=
  match fs log_dir with
  | none => .error .fileNotFound
  | some files => .ok (files.foldl (fun results filename =>
      if pyEndsWith filename ("_log.txt") then
        match parse_ric3_log_path content (pyPathJoin log_dir filename) with
        | .ok r => dictInsert results filename r
        | .error _ => dictInsert results filename (3600, -1, "unknown", -1)
      else results) [])

end ParseRic3Log

/-! ## `parse_ic3ref_log.py` (variant B parser)

The view records the outcomes of the regex operations performed by the
module, in source order:
  * `elapsedMatches` — all group-1 matches of `Elapsed time:\s*([\d.]+)`
                       (`re.findall`);
  * `startMatch`     — group 1 of the first match of `Started at:\s*(.+)`;
  * `finishMatch`    — group 1 of the first match of `Finished at:\s*(.+)`;
  * `kMatches`       — all group-1 matches of `\.\s+K:\s+(\d+)`
                       (`re.findall`);
  * `statusMatch`    — group 1 of the first match of `\n\s*([01])\s*\nFile:`.
-/

structure Ic3refView : Type where
  elapsedMatches : List String
  startMatch : Option String
  finishMatch : Option String
  kMatches : List String
  statusMatch : Option String
deriving DecidableEq, Repr

namespace ParseIc3refLog

/-- `TIMEOUT_SECONDS` of `parse_ic3ref_log.py`. -/
def TIMEOUT_SECONDS : ℚ := 3600

/-- `_parse_elapsed_time`: the last reported elapsed time, else the
non-negative difference of the two timestamps, else `None`.  A `ValueError`
from `float` on the last match is caught and yields `None` (the timestamp
fallback is not reached in that case); a negative timestamp difference also
yields `None`. -/
def _parse_elapsed_time (v : Ic3refView) : Option ℚ :=
  match v.elapsedMatches.getLast? with
  | some last => pyFloat last
  | none =>
    match v.startMatch, v.finishMatch with
    | some st, some fi =>
      match strptimeCtime (pyStrip st), strptimeCtime (pyStrip fi) with
      | some t1, some t2 =>
          if (0 : ℤ) ≤ (t2 : ℤ) - (t1 : ℤ) then some (((t2 : ℤ) - (t1 : ℤ) : ℤ) : ℚ)
          else none
      | _, _ => none
    | _, _ => none

/-- `_parse_array_length`: the last `K:` value, or `-1` when none is found.
`Except.error` models the (regex-unreachable) `ValueError` of `int`. -/
def _parse_array_length (v : Ic3refView) : Except PyErr ℤ :=
  match v.kMatches.getLast? with
  | some k =>
    match pyInt k with
    | some n => .ok n
    | none => .error .valueError
  | none => .ok (-1)

/-- `_parse_result_type`: map the trailing status digit to the normalized
result label. -/
def _parse_result_type (v : Ic3refView) : String :=
  match v.statusMatch with
  | none => "unknown"
  | some d => if d = "0" then "proof" else "counter-example"

/-- `parse_ic3ref_log` on the view of a log file's content: the tuple
`(time_seconds, array_length, result_type)`, with the timeout override. -/
def parse_ic3ref_log (v : Ic3refView) : Except PyErr (ℚ × ℤ × String) :=
  let result_type := _parse_result_type v
  match _parse_array_length v with
  | .error e => .error e
  | .ok array_length =>
    let time0 := _parse_elapsed_time v
    let time_seconds : ℚ :=
      match time0 with
      | none => TIMEOUT_SECONDS
      | some q => if result_type = "unknown" then TIMEOUT_SECONDS else q
    .ok (time_seconds, array_length, result_type)

/-- `parse_ic3ref_log` at the file level (`none` content = unreadable or
missing file, the raised `FileNotFoundError`/`OSError`). -/
def parse_ic3ref_log_path (content : String → Option Ic3refView) (path : String) :
    Except PyErr (ℚ × ℤ × String) :=
  match content path with
  | none => .error .fileNotFound
  | some v => parse_ic3ref_log v

/-- `parse_ic3ref_log_batch`: parse every `*_log.txt` file of a directory,
keyed by filename; a per-file exception records the sentinel
`(TIMEOUT_SECONDS, -1, "unknown")` after printing an error message (not
modelled).  A missing directory raises `FileNotFoundError`. -/
def parse_ic3ref_log_batch (fs : String → Option (List String))
    (content : String → Option Ic3refView) (log_dir : String) :
    Except PyErr (List (String × (ℚ × ℤ × String))) :=
  match fs log_dir with
  | none => .error .fileNotFound
  | some files => .ok (files.foldl (fun results filename =>
      if pyEndsWith filename ("_log.txt") then
        match parse_ic3ref_log_path content (pyPathJoin log_dir filename) with
        | .ok r => dictInsert results filename r
        | .error _ => dictInsert results filename (TIMEOUT_SECONDS, -1, "unknown")
      else results) [])

end ParseIc3refLog

/-- A dynamically-typed Python value, used where the scripts pass parser
result tuples around generically (a tuple is modelled as a `List PyVal` so
that unpacking arity can be wrong, as it is in `generate_par2_table.py`). -/
inductive PyVal : Type
  | f (q : ℚ)
  | i (n : ℤ)
  | s (v : String)
deriving DecidableEq, Repr

/-- `parse_ic3ref_log` as the dynamically-typed callable that the aggregator
scripts receive as `parser_func`: its 3-element result tuple as a
`List PyVal`. -/
def ParseIc3refLog.parse_ic3ref_log_pyval (content : String → Option Ic3refView)
    (path : String) : Except PyErr (List PyVal) :=
  match ParseIc3refLog.parse_ic3ref_log_path content path with
  | .ok (t, le, r) => .ok [.f t, .i le, .s r]
  | .error e => .error e

/-- Python tuple unpacking `a, b, c = l`: `ValueError` unless the tuple has
exactly 3 elements. -/
def unpack3 {α : Type} (l : List α) : Except PyErr (α × α × α) :=
  match l with
  | [a, b, c] => .ok (a, b, c)
  | _ => .error .valueError

/-- Python tuple unpacking `a, b, c, d = l`: `ValueError` unless the tuple
has exactly 4 elements. -/
def unpack4 {α : Type} (l : List α) : Except PyErr (α × α × α × α) :=
  match l with
  | [a, b, c, d] => .ok (a, b, c, d)
  | _ => .error .valueError

/-- The warning printed by both aggregator copies for a missing
directory. -/
def dirWarning (log_dir : String) : String :=
  "Warning: Directory not found: " ++ log_dir

/-! ## `parse_log_directories` of `generate_cactus_plot.py`

The aggregator scans an ordered list of directories; for each `*_log.txt`
file it derives the benchmark name by deleting the suffix, calls
`parser_func` on the joined path, unpacks the result into three values, and
inserts the record only if the benchmark name is not already present.  Any
exception of the parse-and-unpack step is silently swallowed (`continue`).
Missing directories print a warning and are skipped; the printed warnings
are returned alongside the mapping. -/

namespace GenerateCactusPlot

/-- One iteration of the inner `for filename in os.listdir(log_dir)` loop. -/
def stepFile {α : Type} (parser : String → Except PyErr (List α))
    (log_dir : String) (results : List (String × (α × α × α)))
    (filename : String) : List (String × (α × α × α)) :=
  if ¬ pyEndsWith filename ("_log.txt") then results
  else
    let basename := pyReplace filename ("_log.txt") ("")
    let log_path := pyPathJoin log_dir filename
    match (parser log_path).bind unpack3 with
    | .ok (t, le, r) =>
        match lookupKey results basename with
        | some _ => results
        | none => results ++ [(basename, (t, le, r))]
    | .error _ => results

/-- The inner loop over one directory's listing. -/
def runFiles {α : Type} (parser : String → Except PyErr (List α))
    (log_dir : String) (results : List (String × (α × α × α)))
    (files : List String) : List (String × (α × α × α)) :=
  files.foldl (stepFile parser log_dir) results

/-- One iteration of the outer `for log_dir in log_dirs` loop, carrying the
printed warnings alongside the mapping. -/
def stepDir {α : Type} (fs : String → Option (List String))
    (parser : String → Except PyErr (List α))
    (acc : List String × List (String × (α × α × α))) (log_dir : String) :
    List String × List (String × (α × α × α)) :=
  match fs log_dir with
  | none => (acc.1 ++ [dirWarning log_dir], acc.2)
  | some files => (acc.1, runFiles parser log_dir acc.2 files)

/-- `parse_log_directories(log_dirs, parser_func)`: the pair of the printed
warnings and the merged mapping from benchmark name to `(time, length,
result_type)` record. -/
def parse_log_directories {α : Type} (fs : String → Option (List String))
    (parser : String → Except PyErr (List α)) (log_dirs : List String) :
    List String × List (String × (α × α × α)) :=
  log_dirs.foldl (stepDir fs parser) ([], [])

end GenerateCactusPlot

/-! ## `parse_log_directories` of `generate_par2_table.py`

Identical scan and merge policy, except that the parser result is unpacked
into four values `time, length, result_type, level` and the stored record
keeps only the first three. -/

namespace GeneratePar2Table

/-- One iteration of the inner file loop (four-way unpacking). -/
def stepFile {α : Type} (parser : String → Except PyErr (List α))
    (log_dir : String) (results : List (String × (α × α × α)))
    (filename : String) : List (String × (α × α × α)) :=
  if ¬ pyEndsWith filename ("_log.txt") then results
  else
    let basename := pyReplace filename ("_log.txt") ("")
    let log_path := pyPathJoin log_dir filename
    match (parser log_path).bind unpack4 with
    | .ok (t, le, r, _lv) =>
        match lookupKey results basename with
        | some _ => results
        | none => results ++ [(basename, (t, le, r))]
    | .error _ => results

/-- The inner loop over one directory's listing. -/
def runFiles {α : Type} (parser : String → Except PyErr (List α))
    (log_dir : String) (results : List (String × (α × α × α)))
    (files : List String) : List (String × (α × α × α)) :=
  files.foldl (stepFile parser log_dir) results

/-- One iteration of the outer directory loop. -/
def stepDir {α : Type} (fs : String → Option (List String))
    (parser : String → Except PyErr (List α))
    (acc : List String × List (String × (α × α × α))) (log_dir : String) :
    List String × List (String × (α × α × α)) :=
  match fs log_dir with
  | none => (acc.1 ++ [dirWarning log_dir], acc.2)
  | some files => (acc.1, runFiles parser log_dir acc.2 files)

/-- `parse_log_directories(log_dirs, parser_func)` of
`generate_par2_table.py`. -/
def parse_log_directories {α : Type} (fs : String → Option (List String))
    (parser : String → Except PyErr (List α)) (log_dirs : List String) :
    List String × List (String × (α × α × α)) :=
  log_dirs.foldl (stepDir fs parser) ([], [])

end GeneratePar2Table

/-! ## Helper lemmas about the dict model -/

theorem lookupKey_append_ne {β : Type} (m : List (String × β)) (k : String)
    (v : β) (X : String) (h : k ≠ X) :
    lookupKey (m ++ [(k, v)]) X = lookupKey m X := by
  induction m with
  | nil => simp [lookupKey, h]
  | cons p rest ih =>
      obtain ⟨a, b⟩ := p
      simp only [List.cons_append, lookupKey]
      split <;> simp [ih]

theorem lookupKey_append_self {β : Type} (m : List (String × β)) (k : String)
    (v : β) (h : lookupKey m k = none) :
    lookupKey (m ++ [(k, v)]) k = some v := by
  induction m with
  | nil => simp [lookupKey]
  | cons p rest ih =>
      obtain ⟨a, b⟩ := p
      simp only [lookupKey] at h
      simp only [List.cons_append, lookupKey]
      split
      · next ha => rw [ha] at h; simp at h
      · next ha => exact ih (by simpa [ha] using h)
  
theorem lookupKey_dictInsert_self {β : Type} (m : List (String × β))
    (k : String) (v : β) : lookupKey (dictInsert m k v) k = some v := by
  induction m with
  | nil => simp [dictInsert, lookupKey]
  | cons p rest ih =>
      obtain ⟨a, b⟩ := p
      simp only [dictInsert]
      split
      · simp [lookupKey]
      · next ha => simp [lookupKey, ha, ih]

theorem lookupKey_dictInsert_ne {β : Type} (m : List (String × β))
    (k : String) (v : β) (X : String) (h : k ≠ X) :
    lookupKey (dictInsert m k v) X = lookupKey m X := by
  induction m with
  | nil => simp [dictInsert, lookupKey, h]
  | cons p rest ih =>
      obtain ⟨a, b⟩ := p
      simp only [dictInsert]
      split
      · next ha => subst ha; simp [lookupKey, h]
      · next ha => simp [lookupKey, ih]

/-- Generic fold lemma: if processing `fn` always installs the fixed value
`vfn` and processing any other filename leaves the binding of `fn`
untouched, then after folding a list containing `fn` the dict maps `fn` to
`vfn`. -/
theorem foldl_insert_lookup {β : Type}
    (step : List (String × β) → String → List (String × β)) (fn : String)
    (vfn : β) (h1 : ∀ m, step m fn = dictInsert m fn vfn)
    (h2 : ∀ m g, g ≠ fn → lookupKey (step m g) fn = lookupKey m fn) :
    ∀ (files : List String) (r : List (String × β)),
      fn ∈ files ∨ lookupKey r fn = some vfn →
      lookupKey (files.foldl step r) fn = some vfn := by
  intro files
  induction files with
  | nil =>
      intro r h
      rcases h with h | h
      · simp at h
      · simpa using h
  | cons g rest ih =>
      intro r h
      simp only [List.foldl_cons]
      by_cases hg : g = fn
      · subst hg
        exact ih _ (Or.inr (by rw [h1 r]; exact lookupKey_dictInsert_self r g vfn))
      · rcases h with h | h
        · rcases List.mem_cons.mp h with h' | h'
          · exact absurd h'.symm hg
          · exact ih _ (Or.inl h')
        · exact ih _ (Or.inr (by rw [h2 r g hg]; exact h))

namespace GenerateCactusPlot

theorem stepFile_pres {α : Type} (parser : String → Except PyErr (List α))
    (d : String) (m : List (String × (α × α × α))) (fn X : String)
    (v : α × α × α) (h : lookupKey m X = some v) :
    lookupKey (stepFile parser d m fn) X = some v := by
  unfold stepFile
  split
  · exact h
  · dsimp only
    split
    · next t le r heq =>
        split
        · exact h
        · next heq2 =>
            by_cases hb : pyReplace fn ("_log.txt") ("") = X
            · rw [hb] at heq2; rw [heq2] at h; exact absurd h (by simp)
            · rw [lookupKey_append_ne _ _ _ _ hb]; exact h
    · exact h

end GenerateCactusPlot

namespace GenerateCactusPlot

theorem runFiles_pres {α : Type} (parser : String → Except PyErr (List α))
    (d : String) (X : String) (v : α × α × α) :
    ∀ (files : List String) (m : List (String × (α × α × α))),
      lookupKey m X = some v →
      lookupKey (runFiles parser d m files) X = some v := by
  intro files
  induction files with
  | nil => intro m h; simpa [runFiles] using h
  | cons g rest ih =>
      intro m h
      simp only [runFiles, List.foldl_cons]
      exact ih _ (stepFile_pres parser d m g X v h)

theorem stepDir_pres {α : Type} (fs : String → Option (List String))
    (parser : String → Except PyErr (List α))
    (acc : List String × List (String × (α × α × α))) (d : String)
    (X : String) (v : α × α × α) (h : lookupKey acc.2 X = some v) :
    lookupKey (stepDir fs parser acc d).2 X = some v := by
  unfold stepDir
  split
  · exact h
  · exact runFiles_pres parser d X v _ acc.2 h

theorem stepDir_none {α : Type} (fs : String → Option (List String))
    (parser : String → Except PyErr (List α))
    (acc : List String × List (String × (α × α × α))) (d : String)
    (h : fs d = none) :
    stepDir fs parser acc d = (acc.1 ++ [dirWarning d], acc.2) := by
  unfold stepDir
  rw [h]

theorem stepDir_some {α : Type} (fs : String → Option (List String))
    (parser : String → Except PyErr (List α))
    (acc : List String × List (String × (α × α × α))) (d : String)
    (files : List String) (h : fs d = some files) :
    stepDir fs parser acc d = (acc.1, runFiles parser d acc.2 files) := by
  unfold stepDir
  rw [h]

/-- The outer fold split into its warning and mapping components: warnings
only accumulate at the end, and the mapping component never depends on the
warnings accumulated so far. -/
theorem foldDirs_shift {α : Type} (fs : String → Option (List String))
    (parser : String → Except PyErr (List α)) :
    ∀ (dirs : List String) (w : List String)
      (r : List (String × (α × α × α))),
      dirs.foldl (stepDir fs parser) (w, r) =
        (w ++ (dirs.foldl (stepDir fs parser) ([], r)).1,
         (dirs.foldl (stepDir fs parser) ([], r)).2) := by
  intro dirs
  induction dirs with
  | nil => intro w r; simp
  | cons d rest ih =>
      intro w r
      simp only [List.foldl_cons]
      cases hd : fs d with
      | none =>
          rw [stepDir_none fs parser _ d hd, stepDir_none fs parser _ d hd]
          dsimp only
          rw [ih (w ++ [dirWarning d]) r, ih ([] ++ [dirWarning d]) r]
          simp [List.append_assoc]
      | some files =>
          rw [stepDir_some fs parser _ d files hd, stepDir_some fs parser _ d files hd]
          dsimp only
          rw [ih w (runFiles parser d r files)]

end GenerateCactusPlot

namespace GenerateCactusPlot

theorem runFiles_cons {α : Type} (parser : String → Except PyErr (List α))
    (d : String) (m : List (String × (α × α × α))) (g : String)
    (rest : List String) :
    runFiles parser d m (g :: rest) =
      runFiles parser d (stepFile parser d m g) rest := rfl

/-- A file whose parse raises (or whose record does not unpack) never
changes the binding of any benchmark name; a file with a different
benchmark name never changes the binding of `X`. -/
theorem stepFile_lookup_bad {α : Type} (parser : String → Except PyErr (List α))
    (d : String) (m : List (String × (α × α × α))) (fn X : String)
    (hbad : pyEndsWith fn ("_log.txt") = true →
      pyReplace fn ("_log.txt") ("") = X →
      ∃ e, parser (pyPathJoin d fn) = .error e) :
    lookupKey (stepFile parser d m fn) X = lookupKey m X := by
  unfold stepFile
  split
  · rfl
  · next hsuf =>
      dsimp only
      split
      · next t le r heq =>
          by_cases hb : pyReplace fn ("_log.txt") ("") = X
          · obtain ⟨e, he⟩ := hbad (by revert hsuf; simp) hb
            rw [he] at heq
            simp [Except.bind] at heq
          · split
            · rfl
            · rw [lookupKey_append_ne _ _ _ _ hb]
      · rfl

theorem runFiles_lookup_bad {α : Type} (parser : String → Except PyErr (List α))
    (d : String) (X : String) :
    ∀ (files : List String) (m : List (String × (α × α × α))),
      (∀ fn ∈ files, pyEndsWith fn ("_log.txt") = true →
        pyReplace fn ("_log.txt") ("") = X →
        ∃ e, parser (pyPathJoin d fn) = .error e) →
      lookupKey (runFiles parser d m files) X = lookupKey m X := by
  intro files
  induction files with
  | nil => intro m _; simp [runFiles]
  | cons g rest ih =>
      intro m hbad
      rw [runFiles_cons, ih _ (fun fn hfn => hbad fn (List.mem_cons_of_mem g hfn))]
      exact stepFile_lookup_bad parser d m g X (hbad g (List.mem_cons_self g rest))

theorem foldDirs_lookup_bad {α : Type} (fs : String → Option (List String))
    (parser : String → Except PyErr (List α)) (X : String) :
    ∀ (dirs : List String) (acc : List String × List (String × (α × α × α))),
      (∀ d ∈ dirs, ∀ files, fs d = some files →
        ∀ fn ∈ files, pyEndsWith fn ("_log.txt") = true →
          pyReplace fn ("_log.txt") ("") = X →
          ∃ e, parser (pyPathJoin d fn) = .error e) →
      lookupKey (dirs.foldl (stepDir fs parser) acc).2 X = lookupKey acc.2 X := by
  intro dirs
  induction dirs with
  | nil => intro acc _; rfl
  | cons d rest ih =>
      intro acc hbad
      simp only [List.foldl_cons]
      rw [ih _ (fun d' hd' => hbad d' (List.mem_cons_of_mem d hd'))]
      cases hd : fs d with
      | none => rw [stepDir_none fs parser _ d hd]
      | some files =>
          rw [stepDir_some fs parser _ d files hd]
          exact runFiles_lookup_bad parser d X files acc.2
            (hbad d (List.mem_cons_self d rest) files hd)

/-- A successfully parsed file installs its benchmark name. -/
theorem runFiles_appears {α : Type} (parser : String → Except PyErr (List α))
    (d : String) (fn : String) (w : α × α × α)
    (hsuf : pyEndsWith fn ("_log.txt") = true)
    (hok : (parser (pyPathJoin d fn)).bind unpack3 = .ok w) :
    ∀ (files : List String) (m : List (String × (α × α × α))),
      fn ∈ files →
      lookupKey (runFiles parser d m files) (pyReplace fn ("_log.txt") ("")) ≠
        none := by
  intro files
  induction files with
  | nil => intro m h; simp at h
  | cons g rest ih =>
      intro m hmem
      simp only [runFiles, List.foldl_cons]
      rcases List.mem_cons.mp hmem with hg | hg
      · subst hg
        have hne : lookupKey (stepFile parser d m fn)
            (pyReplace fn ("_log.txt") ("")) ≠ none := by
          unfold stepFile
          rw [if_neg (by simp [hsuf])]
          dsimp only
          rw [hok]
          cases hm : lookupKey m (pyReplace fn ("_log.txt") ("")) with
          | some u => simp [hm]
          | none =>
              obtain ⟨t, le, r⟩ := w
              simp only [hm]
              rw [lookupKey_append_self _ _ _ hm]
              simp
        obtain ⟨u, hu⟩ := Option.ne_none_iff_exists'.mp hne
        have := runFiles_pres parser d _ u rest _ hu
        simp only [runFiles] at this
        rw [this]
        simp
      · exact ih _ hg

end GenerateCactusPlot

theorem unpack4_of_length_three {α : Type} (l : List α) (h : l.length = 3) :
    unpack4 l = .error .valueError := by
  rcases l with _ | ⟨a, _ | ⟨b, _ | ⟨c, _ | ⟨e4, t4⟩⟩⟩⟩ <;> first
    | rfl
    | simp at h

theorem parse_ic3ref_log_pyval_length (content : String → Option Ic3refView)
    (path : String) (l : List PyVal)
    (h : ParseIc3refLog.parse_ic3ref_log_pyval content path = .ok l) :
    l.length = 3 := by
  unfold ParseIc3refLog.parse_ic3ref_log_pyval at h
  cases hp : ParseIc3refLog.parse_ic3ref_log_path content path with
  | error e => rw [hp] at h; simp at h
  | ok w =>
      obtain ⟨t, le, r⟩ := w
      rw [hp] at h
      simp at h
      rw [← h]
      rfl

namespace GeneratePar2Table

theorem stepFile_no_insert {α : Type} (parser : String → Except PyErr (List α))
    (d : String) (m : List (String × (α × α × α))) (fn : String)
    (h3 : ∀ l, parser (pyPathJoin d fn) = .ok l → l.length = 3) :
    stepFile parser d m fn = m := by
  unfold stepFile
  split
  · rfl
  · dsimp only
    split
    · next t le r heq =>
        exfalso
        cases hp : parser (pyPathJoin d fn) with
        | error e => rw [hp] at heq; simp [Except.bind] at heq
        | ok l =>
            rw [hp] at heq
            simp only [Except.bind] at heq
            rw [unpack4_of_length_three l (h3 l hp)] at heq
            simp at heq
    · rfl

theorem runFiles_id {α : Type} (parser : String → Except PyErr (List α))
    (d : String) (h3 : ∀ p l, parser p = .ok l → l.length = 3) :
    ∀ (files : List String) (m : List (String × (α × α × α))),
      runFiles parser d m files = m := by
  intro files
  induction files with
  | nil => intro m; rfl
  | cons g rest ih =>
      intro m
      have hcons : runFiles parser d m (g :: rest) =
          runFiles parser d (stepFile parser d m g) rest := rfl
      rw [hcons, stepFile_no_insert parser d m g (fun l => h3 _ l), ih]

theorem foldDirs_snd_id {α : Type} (fs : String → Option (List String))
    (parser : String → Except PyErr (List α))
    (h3 : ∀ p l, parser p = .ok l → l.length = 3) :
    ∀ (dirs : List String) (acc : List String × List (String × (α × α × α))),
      (dirs.foldl (stepDir fs parser) acc).2 = acc.2 := by
  intro dirs
  induction dirs with
  | nil => intro acc; rfl
  | cons d rest ih =>
      intro acc
      simp only [List.foldl_cons]
      rw [ih]
      unfold stepDir
      cases hd : fs d with
      | none => simp
      | some files => simp [runFiles_id parser d h3]

end GeneratePar2Table

/-- C1: for every IC3REF log view whose elapsed-time step yields nothing, or
whose outcome is `unknown`, `parse_ic3ref_log` forces the timeout sentinel
`elapsed_seconds = 3600`, whatever elapsed time the text really carried. -/
theorem C1_ic3ref_unknown_forces_timeout (v : Ic3refView)
    (h : ParseIc3refLog._parse_elapsed_time v = none ∨
      ParseIc3refLog._parse_result_type v = "unknown") :
    ParseIc3refLog.parse_ic3ref_log v =
      (ParseIc3refLog._parse_array_length v).map
        (fun l => ((3600 : ℚ), l, ParseIc3refLog._parse_result_type v)) := by
  unfold ParseIc3refLog.parse_ic3ref_log
  cases harr : ParseIc3refLog._parse_array_length v with
  | error e => simp [Except.map]
  | ok n =>
      dsimp only
      rcases h with h0 | h0
      · rw [h0]
        simp [Except.map, ParseIc3refLog.TIMEOUT_SECONDS]
      · cases he : ParseIc3refLog._parse_elapsed_time v with
        | none => simp [Except.map, ParseIc3refLog.TIMEOUT_SECONDS]
        | some q => simp [Except.map, ParseIc3refLog.TIMEOUT_SECONDS, h0]

/-- C1 witness: a log with a real `Elapsed time: 45.2` but no recognized
status digit is reported as a 3600-second timeout. -/
theorem C1_witness :
    (ParseIc3refLog._parse_elapsed_time ⟨[("45.2")], none, none, [], none⟩ = none ∨
      ParseIc3refLog._parse_result_type ⟨[("45.2")], none, none, [], none⟩ = "unknown") ∧
    ParseIc3refLog.parse_ic3ref_log ⟨[("45.2")], none, none, [], none⟩ =
      (ParseIc3refLog._parse_array_length ⟨[("45.2")], none, none, [], none⟩).map
        (fun l => ((3600 : ℚ), l, ParseIc3refLog._parse_result_type ⟨[("45.2")], none, none, [], none⟩)) :=
  ⟨Or.inr rfl, C1_ic3ref_unknown_forces_timeout _ (Or.inr rfl)⟩

/-- C6: with no bracketed integer list in the text, `parse_ric3_log` returns
the sentinel `(3600, -1, ..., -1)`, and the outcome is taken independently
from the result keyword: `safe` gives `proof`, `unsafe` gives
`counter-example`, anything else (or no keyword) gives `unknown`. -/
theorem C6_ric3_no_array_sentinel (v : Ric3View) (h : v.arrayMatch = none) :
    ParseRic3Log.parse_ric3_log v =
      .ok (3600, -1, ParseRic3Log.resultTypeOfToken v.resultToken, -1) ∧
    ParseRic3Log.resultTypeOfToken none = "unknown" ∧
    (∀ s, pyLower s = "safe" → ParseRic3Log.resultTypeOfToken (some s) = "proof") ∧
    (∀ s, pyLower s = "unsafe" →
      ParseRic3Log.resultTypeOfToken (some s) = "counter-example") ∧
    (∀ s, pyLower s ≠ "safe" → pyLower s ≠ "unsafe" →
      ParseRic3Log.resultTypeOfToken (some s) = "unknown") := by
  refine ⟨?_, rfl, ?_, ?_, ?_⟩
  · unfold ParseRic3Log.parse_ric3_log
    rw [h]
  · intro s hs
    unfold ParseRic3Log.resultTypeOfToken
    dsimp only
    rw [hs]
    decide
  · intro s hs
    unfold ParseRic3Log.resultTypeOfToken
    dsimp only
    rw [hs]
    decide
  · intro s hs1 hs2
    unfold ParseRic3Log.resultTypeOfToken
    dsimp only
    rw [if_neg hs1, if_neg hs2]

/-- C6 witness: a log with a `result: unsafe` keyword but no array. -/
theorem C6_witness :
    ParseRic3Log.parse_ric3_log ⟨some ("unsafe"), none, none, none, none⟩ =
      .ok (3600, -1, ParseRic3Log.resultTypeOfToken (some ("unsafe")), -1) ∧
    ParseRic3Log.resultTypeOfToken (some ("unsafe")) = "counter-example" :=
  ⟨(C6_ric3_no_array_sentinel ⟨some ("unsafe"), none, none, none, none⟩ rfl).1,
   (C6_ric3_no_array_sentinel ⟨some ("unsafe"), none, none, none, none⟩ rfl).2.2.2.1
     ("unsafe") (by decide)⟩

/-- C7: when at least one `Elapsed time:` match exists, `_parse_elapsed_time`
is the float value of the last occurrence, its result is independent of the
`Started at`/`Finished at` timestamps (the fallback is unreachable), and in
a recognized-outcome log `parse_ic3ref_log` reports exactly that last value
as `elapsed_seconds`. -/
theorem C7_ic3ref_last_elapsed_wins (v : Ic3refView) (last : String)
    (h : v.elapsedMatches.getLast? = some last) :
    ParseIc3refLog._parse_elapsed_time v = pyFloat last ∧
    (∀ s f, ParseIc3refLog._parse_elapsed_time
        { v with startMatch := s, finishMatch := f } =
      ParseIc3refLog._parse_elapsed_time v) ∧
    (∀ (q : ℚ) (n : ℤ), pyFloat last = some q →
      ParseIc3refLog._parse_result_type v ≠ "unknown" →
      ParseIc3refLog._parse_array_length v = .ok n →
      ParseIc3refLog.parse_ic3ref_log v =
        .ok (q, n, ParseIc3refLog._parse_result_type v)) := by
  have h1 : ParseIc3refLog._parse_elapsed_time v = pyFloat last := by
    unfold ParseIc3refLog._parse_elapsed_time
    rw [h]
  refine ⟨h1, ?_, ?_⟩
  · intro s f
    unfold ParseIc3refLog._parse_elapsed_time
    simp only []
    rw [h]
  · intro q n hq hrt hn
    unfold ParseIc3refLog.parse_ic3ref_log
    rw [hn]
    dsimp only
    rw [h1, hq]
    dsimp only
    rw [if_neg hrt]

/-- C7 witness: `Elapsed time:` appearing twice, with 45.2 last; the parsed
record carries 45.2, not 10.0. -/
theorem C7_witness :
    ParseIc3refLog._parse_elapsed_time
        ⟨[("10.0"), ("45.2")], none, none, [("5")], some ("0")⟩ =
      pyFloat ("45.2") ∧
    ParseIc3refLog.parse_ic3ref_log
        ⟨[("10.0"), ("45.2")], none, none, [("5")], some ("0")⟩ =
      .ok (((226 : ℚ) / 5), 5,
        ParseIc3refLog._parse_result_type
          ⟨[("10.0"), ("45.2")], none, none, [("5")], some ("0")⟩) := by
  have h := C7_ic3ref_last_elapsed_wins
    ⟨[("10.0"), ("45.2")], none, none, [("5")], some ("0")⟩ ("45.2") rfl
  refine ⟨h.1, ?_⟩
  refine h.2.2 ((226 : ℚ) / 5) 5 ?_ (by decide) (by decide)
  unfold pyFloat
  rw [if_neg (by decide), if_neg (by decide),
    show splitOnChar '.' ("45.2") = [("45"), ("2")] from by decide]
  dsimp only
  rw [show digitsNat ("45") = 45 from by decide,
    show digitsNat ("2") = 2 from by decide,
    show ("2" : String).length = 1 from by decide]
  norm_num

/-- C9: both parsers are deterministic pure functions of the log text:
equal contents give equal result tuples. -/
theorem C9_parsers_deterministic (a b : Ric3View) (c d : Ic3refView)
    (hab : a = b) (hcd : c = d) :
    ParseRic3Log.parse_ric3_log a = ParseRic3Log.parse_ric3_log b ∧
    ParseIc3refLog.parse_ic3ref_log c = ParseIc3refLog.parse_ic3ref_log d := by
  subst hab
  subst hcd
  exact ⟨rfl, rfl⟩

/-- C9 witness at concrete log contents. -/
theorem C9_witness :
    ParseRic3Log.parse_ric3_log ⟨some ("safe"), some ("[0]"), some ("1.5"), none, none⟩ =
      ParseRic3Log.parse_ric3_log ⟨some ("safe"), some ("[0]"), some ("1.5"), none, none⟩ ∧
    ParseIc3refLog.parse_ic3ref_log ⟨[("2.0")], none, none, [("3")], some ("0")⟩ =
      ParseIc3refLog.parse_ic3ref_log ⟨[("2.0")], none, none, [("3")], some ("0")⟩ :=
  C9_parsers_deterministic _ _ _ _ rfl rfl

/-- C10: `generate_par2_table.py`'s aggregator unpacks four values from
each parser result, while `parse_ic3ref_log` returns a three-element tuple;
the resulting `ValueError` is swallowed for every file, so the returned
mapping is always empty, whatever directories are scanned. -/
theorem C10_par2_ic3ref_always_empty (fs : String → Option (List String))
    (content : String → Option Ic3refView) (dirs : List String) :
    (GeneratePar2Table.parse_log_directories fs
      (ParseIc3refLog.parse_ic3ref_log_pyval content) dirs).2 = [] := by
  unfold GeneratePar2Table.parse_log_directories
  exact GeneratePar2Table.foldDirs_snd_id fs _
    (fun p l hl => parse_ic3ref_log_pyval_length content p l hl) dirs ([], [])

/-- C5: a variant A log with an explicit `time: 12.34s` token, a
`result: safe` token and a first bracketed integer list of 7 elements
parses to `(12.34, 7, proof, 7)`. -/
theorem C5_ric3_explicit_time (v : Ric3View) (a : String)
    (hr : v.resultToken = some ("safe"))
    (ht : v.timeMatch = some ("12.34"))
    (ha : v.arrayMatch = some a)
    (h7 : ParseRic3Log.arrayLengthLevel a = .ok (7, 7)) :
    ParseRic3Log.parse_ric3_log v = .ok ((12.34 : ℚ), 7, "proof", 7) := by
  have hf : pyFloat ("12.34") = some ((12.34 : ℚ)) := by
    unfold pyFloat
    rw [if_neg (by decide), if_neg (by decide),
      show splitOnChar '.' ("12.34") = [("12"), ("34")] from by decide]
    dsimp only
    rw [show digitsNat ("12") = 12 from by decide,
      show digitsNat ("34") = 34 from by decide,
      show ("34" : String).length = 2 from by decide]
    norm_num
  have hrt : ParseRic3Log.resultTypeOfToken v.resultToken = "proof" := by
    rw [hr]
    decide
  unfold ParseRic3Log.parse_ric3_log
  rw [ha]
  dsimp only
  rw [h7]
  dsimp only
  rw [ht]
  dsimp only
  rw [hf, hrt]

/-- C5 witness at a concrete 7-element array. -/
theorem C5_witness :
    ParseRic3Log.parse_ric3_log
      ⟨some ("safe"), some ("[0, 1, 2, 3, 4, 5, 6]"), some ("12.34"), none, none⟩ =
      .ok ((12.34 : ℚ), 7, "proof", 7) :=
  C5_ric3_explicit_time _ ("[0, 1, 2, 3, 4, 5, 6]") rfl rfl rfl (by decide)

/-- C3 counterexample: a variant A log with an array, no `time:` token, and
parseable timestamps whose difference is negative is NOT mapped to the
timeout sentinel `(3600, -1)`: `parse_ric3_log` returns the negative
difference verbatim, with the array length. -/
theorem C3_counterexample :
    ParseRic3Log.parse_ric3_log ⟨some ("safe"), some ("[0, 1]"), none,
        some ("Tue Jun 10 04:16:20 CST 2025"),
        some ("Tue Jun 10 04:16:19 CST 2025")⟩ =
      .ok ((-1 : ℚ), 2, "proof", 2) ∧
    (.ok ((-1 : ℚ), (2 : ℤ), ("proof" : String), (2 : ℤ)) :
        Except PyErr (ℚ × ℤ × String × ℤ)) ≠
      .ok ((3600 : ℚ), -1, "proof", -1) := by
  constructor
  · unfold ParseRic3Log.parse_ric3_log
    dsimp only
    rw [show ParseRic3Log.arrayLengthLevel ("[0, 1]") = .ok (2, 2) from by decide]
    dsimp only
    rw [show strptimeCtime (pyStrip ("Tue Jun 10 04:16:20 CST 2025")) =
          some 63885212180 from by decide,
        show strptimeCtime (pyStrip ("Tue Jun 10 04:16:19 CST 2025")) =
          some 63885212179 from by decide]
    dsimp only
    rw [show ParseRic3Log.resultTypeOfToken (some ("safe")) = "proof" from by decide]
    simp only [Except.ok.injEq, Prod.mk.injEq]
    norm_num
  · simp [Prod.ext_iff]

/-- C3 as amended: with an array present and no `time:` token, the timeout
sentinel `(3600, -1)` is used only when parsing either timestamp fails; a
pair of successfully parsed timestamps is used verbatim, so a negative
difference is returned as a negative `elapsed_seconds` together with the
real array length. -/
theorem C3_amended_timestamp_fallback (v : Ric3View) (a st fi : String)
    (len lvl : ℤ) (hT : v.timeMatch = none) (hA : v.arrayMatch = some a)
    (hS : v.startMatch = some st) (hF : v.finishMatch = some fi)
    (hLen : ParseRic3Log.arrayLengthLevel a = .ok (len, lvl)) :
    ((strptimeCtime (pyStrip st) = none ∨ strptimeCtime (pyStrip fi) = none) →
      ParseRic3Log.parse_ric3_log v =
        .ok (3600, -1, ParseRic3Log.resultTypeOfToken v.resultToken, -1)) ∧
    (∀ t1 t2 : ℕ, strptimeCtime (pyStrip st) = some t1 →
      strptimeCtime (pyStrip fi) = some t2 →
      ParseRic3Log.parse_ric3_log v =
        .ok ((((t2 : ℤ) - (t1 : ℤ) : ℤ) : ℚ), len,
          ParseRic3Log.resultTypeOfToken v.resultToken, lvl)) := by
  constructor
  · intro h
    unfold ParseRic3Log.parse_ric3_log
    rw [hA]
    dsimp only
    rw [hLen]
    dsimp only
    rw [hT]
    dsimp only
    rw [hS, hF]
    dsimp only
    rcases h with h | h
    · rw [h]
    · cases hst : strptimeCtime (pyStrip st) with
      | none => rfl
      | some t1 => rw [h]
  · intro t1 t2 h1 h2
    unfold ParseRic3Log.parse_ric3_log
    rw [hA]
    dsimp only
    rw [hLen]
    dsimp only
    rw [hT]
    dsimp only
    rw [hS, hF]
    dsimp only
    rw [h1, h2]

/-- C3 witness: an unparseable `Finished at` timestamp does give the
sentinel. -/
theorem C3_witness :
    ParseRic3Log.parse_ric3_log ⟨some ("safe"), some ("[0, 1]"), none,
        some ("Tue Jun 10 04:16:20 CST 2025"), some ("not a timestamp")⟩ =
      .ok (3600, -1,
        ParseRic3Log.resultTypeOfToken (some ("safe")), -1) :=
  (C3_amended_timestamp_fallback
      ⟨some ("safe"), some ("[0, 1]"), none,
        some ("Tue Jun 10 04:16:20 CST 2025"), some ("not a timestamp")⟩
      ("[0, 1]") ("Tue Jun 10 04:16:20 CST 2025") ("not a timestamp") 2 2
      rfl rfl rfl rfl (by decide)).1
    (Or.inr (by decide))

/-- C2: a benchmark is inserted only if not already present, so the first
directory in the list wins: if aggregating `[D1]` alone yields record `r1`
for `X` and aggregating `[D2]` alone yields `r2`, then `[D1, D2]` yields
`r1` and `[D2, D1]` yields `r2`. -/
theorem C2_first_directory_precedence {α : Type}
    (fs : String → Option (List String))
    (parser : String → Except PyErr (List α)) (D1 D2 X : String)
    (r1 r2 : α × α × α)
    (h1 : lookupKey (GenerateCactusPlot.parse_log_directories fs parser [D1]).2 X =
      some r1)
    (h2 : lookupKey (GenerateCactusPlot.parse_log_directories fs parser [D2]).2 X =
      some r2) :
    lookupKey (GenerateCactusPlot.parse_log_directories fs parser [D1, D2]).2 X =
      some r1 ∧
    lookupKey (GenerateCactusPlot.parse_log_directories fs parser [D2, D1]).2 X =
      some r2 := by
  constructor
  · have hsplit : GenerateCactusPlot.parse_log_directories fs parser [D1, D2] =
        GenerateCactusPlot.stepDir fs parser
          (GenerateCactusPlot.parse_log_directories fs parser [D1]) D2 := rfl
    rw [hsplit]
    exact GenerateCactusPlot.stepDir_pres fs parser _ D2 X r1 h1
  · have hsplit : GenerateCactusPlot.parse_log_directories fs parser [D2, D1] =
        GenerateCactusPlot.stepDir fs parser
          (GenerateCactusPlot.parse_log_directories fs parser [D2]) D1 := rfl
    rw [hsplit]
    exact GenerateCactusPlot.stepDir_pres fs parser _ D1 X r2 h2

/-- C2 witness: two directories holding a log for the same benchmark with
different records; either order keeps the record of its first directory. -/
theorem C2_witness :
    lookupKey ((GenerateCactusPlot.parse_log_directories
        (fun s => if s = "d1" ∨ s = "d2" then some [("x_log.txt")] else none)
        (fun p => if p = "d1/x_log.txt" then .ok [1, 1, 1] else .ok ([2, 2, 2] : List ℕ))
        ["d1", "d2"]).2) ("x") = some (1, 1, 1) ∧
    lookupKey ((GenerateCactusPlot.parse_log_directories
        (fun s => if s = "d1" ∨ s = "d2" then some [("x_log.txt")] else none)
        (fun p => if p = "d1/x_log.txt" then .ok [1, 1, 1] else .ok ([2, 2, 2] : List ℕ))
        ["d2", "d1"]).2) ("x") = some (2, 2, 2) :=
  C2_first_directory_precedence
    (fun s => if s = "d1" ∨ s = "d2" then some [("x_log.txt")] else none)
    (fun p => if p = "d1/x_log.txt" then .ok [1, 1, 1] else .ok ([2, 2, 2] : List ℕ))
    ("d1") ("d2") ("x") (1, 1, 1) (2, 2, 2) (by decide) (by decide)

/-- C8: a missing directory contributes exactly one printed warning and is
otherwise skipped (no exception): aggregation continues with the remaining
directories, and aggregating only a missing directory gives an empty
mapping. -/
theorem C8_missing_directory_skipped {α : Type}
    (fs : String → Option (List String))
    (parser : String → Except PyErr (List α)) (d : String)
    (dirs : List String) (h : fs d = none) :
    GenerateCactusPlot.parse_log_directories fs parser (d :: dirs) =
      (dirWarning d :: (GenerateCactusPlot.parse_log_directories fs parser dirs).1,
        (GenerateCactusPlot.parse_log_directories fs parser dirs).2) ∧
    GenerateCactusPlot.parse_log_directories fs parser [d] =
      ([dirWarning d], []) := by
  have hstep : GenerateCactusPlot.stepDir fs parser (([] : List String),
      ([] : List (String × (α × α × α)))) d =
      ([dirWarning d], ([] : List (String × (α × α × α)))) := by
    rw [GenerateCactusPlot.stepDir_none fs parser _ d h]
    simp
  constructor
  · have hsplit : GenerateCactusPlot.parse_log_directories fs parser (d :: dirs) =
        dirs.foldl (GenerateCactusPlot.stepDir fs parser)
          (GenerateCactusPlot.stepDir fs parser ([], []) d) := rfl
    rw [hsplit, hstep, GenerateCactusPlot.foldDirs_shift]
    rfl
  · have hsplit : GenerateCactusPlot.parse_log_directories fs parser [d] =
        GenerateCactusPlot.stepDir fs parser ([], []) d := rfl
    rw [hsplit, hstep]

/-- C8 witness at a concrete missing directory. -/
theorem C8_witness :
    GenerateCactusPlot.parse_log_directories (fun _ => (none : Option (List String)))
      (fun _ => (.ok [0, 0, 0] : Except PyErr (List ℕ))) [("does/not/exist")] =
      ([dirWarning ("does/not/exist")], []) :=
  (C8_missing_directory_skipped (fun _ => none)
    (fun _ => (.ok [0, 0, 0] : Except PyErr (List ℕ)))
    ("does/not/exist") [] rfl).2

/-- C4 counterexample: a directory whose single log file is unreadable.
`parse_ric3_log_batch` does NOT drop the file: it records it under its
filename with the sentinel record, so the name appears in the output
mapping, contrary to the claim that an erroring file "does not appear in
the output mapping at all". -/
theorem C4_counterexample :
    ParseRic3Log.parse_ric3_log_batch
        (fun s => if s = "d" then some [("x_log.txt")] else none)
        (fun _ => none) ("d") =
      .ok [(("x_log.txt"), ((3600 : ℚ), (-1 : ℤ), ("unknown" : String), (-1 : ℤ)))] ∧
    lookupKey [(("x_log.txt"), ((3600 : ℚ), (-1 : ℤ), ("unknown" : String), (-1 : ℤ)))]
        ("x_log.txt") ≠ none := by
  constructor
  · rfl
  · simp [lookupKey]

/-- C4 as amended: a file whose parse raises is skipped silently by the
aggregator `parse_log_directories`, and its benchmark name is absent from
the mapping unless another log file supplies it, while a file whose record
parses and unpacks does appear; the batch parsers `parse_ric3_log_batch`
and `parse_ic3ref_log_batch`, by contrast, record an erroring file under
its filename with the sentinel record. -/
theorem C4_amended_error_handling :
    (∀ (α : Type) (fs : String → Option (List String))
      (parser : String → Except PyErr (List α)) (dirs : List String) (X : String),
      (∀ d ∈ dirs, ∀ files, fs d = some files → ∀ fn ∈ files,
        pyEndsWith fn ("_log.txt") = true →
        pyReplace fn ("_log.txt") ("") = X →
        ∃ e, parser (pyPathJoin d fn) = .error e) →
      lookupKey (GenerateCactusPlot.parse_log_directories fs parser dirs).2 X = none) ∧
    (∀ (α : Type) (fs : String → Option (List String))
      (parser : String → Except PyErr (List α)) (d : String)
      (files : List String) (fn : String) (w : α × α × α),
      fs d = some files → fn ∈ files →
      pyEndsWith fn ("_log.txt") = true →
      (parser (pyPathJoin d fn)).bind unpack3 = .ok w →
      lookupKey (GenerateCactusPlot.parse_log_directories fs parser [d]).2
        (pyReplace fn ("_log.txt") ("")) ≠ none) ∧
    (∀ (fs : String → Option (List String)) (content : String → Option Ric3View)
      (d : String) (files : List String) (fn : String),
      fs d = some files → fn ∈ files →
      pyEndsWith fn ("_log.txt") = true →
      (∃ e, ParseRic3Log.parse_ric3_log_path content (pyPathJoin d fn) = .error e) →
      ∃ res, ParseRic3Log.parse_ric3_log_batch fs content d = .ok res ∧
        lookupKey res fn = some (3600, -1, "unknown", -1)) ∧
    (∀ (fs : String → Option (List String)) (content : String → Option Ic3refView)
      (d : String) (files : List String) (fn : String),
      fs d = some files → fn ∈ files →
      pyEndsWith fn ("_log.txt") = true →
      (∃ e, ParseIc3refLog.parse_ic3ref_log_path content (pyPathJoin d fn) = .error e) →
      ∃ res, ParseIc3refLog.parse_ic3ref_log_batch fs content d = .ok res ∧
        lookupKey res fn = some (ParseIc3refLog.TIMEOUT_SECONDS, -1, "unknown")) := by
  refine ⟨?_, ?_, ?_, ?_⟩
  · intro α fs parser dirs X hbad
    unfold GenerateCactusPlot.parse_log_directories
    rw [GenerateCactusPlot.foldDirs_lookup_bad fs parser X dirs ([], []) hbad]
    rfl
  · intro α fs parser d files fn w hfs hmem hsuf hok
    have hsplit : GenerateCactusPlot.parse_log_directories fs parser [d] =
        GenerateCactusPlot.stepDir fs parser ([], []) d := rfl
    rw [hsplit, GenerateCactusPlot.stepDir_some fs parser _ d files hfs]
    exact GenerateCactusPlot.runFiles_appears parser d fn w hsuf hok files [] hmem
  · intro fs content d files fn hfs hmem hsuf herr
    obtain ⟨e, he⟩ := herr
    unfold ParseRic3Log.parse_ric3_log_batch
    rw [hfs]
    refine ⟨_, rfl, ?_⟩
    refine foldl_insert_lookup _ fn (3600, -1, "unknown", -1) ?_ ?_ files [] (Or.inl hmem)
    · intro m
      simp only [hsuf, if_true]
      rw [he]
    · intro m g hg
      by_cases hs : pyEndsWith g ("_log.txt") = true
      · simp only [hs, if_true]
        cases hp : ParseRic3Log.parse_ric3_log_path content (pyPathJoin d g) with
        | ok r => exact lookupKey_dictInsert_ne m g r fn hg
        | error e2 => exact lookupKey_dictInsert_ne m g _ fn hg
      · simp only [Bool.not_eq_true] at hs
        simp only [hs]
        rfl
  · intro fs content d files fn hfs hmem hsuf herr
    obtain ⟨e, he⟩ := herr
    unfold ParseIc3refLog.parse_ic3ref_log_batch
    rw [hfs]
    refine ⟨_, rfl, ?_⟩
    refine foldl_insert_lookup _ fn (ParseIc3refLog.TIMEOUT_SECONDS, -1, "unknown")
      ?_ ?_ files [] (Or.inl hmem)
    · intro m
      simp only [hsuf, if_true]
      rw [he]
    · intro m g hg
      by_cases hs : pyEndsWith g ("_log.txt") = true
      · simp only [hs, if_true]
        cases hp : ParseIc3refLog.parse_ic3ref_log_path content (pyPathJoin d g) with
        | ok r => exact lookupKey_dictInsert_ne m g r fn hg
        | error e2 => exact lookupKey_dictInsert_ne m g _ fn hg
      · simp only [Bool.not_eq_true] at hs
        simp only [hs]
        rfl

/-- C4 witness: an unreadable file is absent from the aggregator's mapping
but present, with the sentinel, in the batch parser's mapping. -/
theorem C4_witness :
    lookupKey ((GenerateCactusPlot.parse_log_directories
        (fun s => if s = "d" then some [("x_log.txt")] else none)
        (fun _ => (.error .fileNotFound : Except PyErr (List ℕ))) ["d"]).2)
      ("x") = none ∧
    (∃ res, ParseRic3Log.parse_ric3_log_batch
        (fun s => if s = "d" then some [("x_log.txt")] else none)
        (fun _ => none) ("d") = .ok res ∧
      lookupKey res ("x_log.txt") = some (3600, -1, "unknown", -1)) :=
  ⟨C4_amended_error_handling.1 ℕ
      (fun s => if s = "d" then some [("x_log.txt")] else none)
      (fun _ => .error .fileNotFound) ["d"] ("x")
      (fun d _ files _ fn _ _ _ => ⟨.fileNotFound, rfl⟩),
   C4_amended_error_handling.2.2.1
      (fun s => if s = "d" then some [("x_log.txt")] else none)
      (fun _ => none) ("d") [("x_log.txt")] ("x_log.txt") rfl
      (List.mem_singleton.mpr rfl) (by decide) ⟨.fileNotFound, rfl⟩⟩
